import Mathlib

/-!
Shallow embedding, in Lean 4, of the PDF document-splitting and
quantity-validation logic of the ocr-sam-project repository.

The repository's pure decision logic lives in:
  - src/email_processor/app.py      (smart splitting + improved validation)
  - src/s3_document_processor/app.py (separator counting, skip-config split,
                                      quantity/config validation, S3 event flow)
  - src/services/pdf_service.py     (PDFService separator detection)
  - src/shared/validators.py        (PDFValidator, OficiosValidator)
  - src/retry/app.py                (retry eligibility with backoff)

A PDF is modelled as the list of its pages' extracted texts (the result of
PyPDF2 page.extract_text()), a text as a list of characters, and raw bytes
as lists of naturals.  Python regular-expression searches are executed by a
small existential matcher over token lists; side effects (S3 puts, SQS
sends, notifications) are recorded in an explicit effects record.
-/

namespace OcrSam

/-! ## Text utilities (Python str semantics) -/

/-- Python whitespace characters, as recognised by str.strip and regex
class backslash-s. -/
def isPyWs (c : Char) : Bool :=
  c = ' ' || c = '\t' || c = '\n' || c = '\x0d' || c = '\x0b' || c = '\x0c'

/-- Python str.strip(): drop leading and trailing whitespace. -/
def pyStrip (s : List Char) : List Char :=
  ((s.dropWhile isPyWs).reverse.dropWhile isPyWs).reverse

/-- Python str.lower(), character by character. -/
def lowerList (s : List Char) : List Char := s.map Char.toLower

/-- Python str.upper(), character by character. -/
def upperList (s : List Char) : List Char := s.map Char.toUpper

/-- Python subsequence test: pat in s (contiguous substring). -/
def containsSub {α : Type} [BEq α] (pat s : List α) : Bool :=
  (List.range (s.length + 1)).any (fun i => pat.isPrefixOf (s.drop i))

/-- Python str.split on a newline: every piece between newline
characters, empty pieces kept. -/
def splitOnNl : List Char → List (List Char)
  | [] => [[]]
  | c :: rest =>
    match splitOnNl rest with
    | [] => [[]]
    | h :: t => if c = '\n' then [] :: h :: t else (c :: h) :: t

/-- Python single-space join of text pieces. -/
def joinSpace (ls : List (List Char)) : List Char := List.intercalate [' '] ls

/-- Insert into a sorted list (ascending). -/
def insSorted (a : Nat) : List Nat → List Nat
  | [] => [a]
  | b :: l => if a ≤ b then a :: b :: l else b :: insSorted a l

/-- Insertion sort, ascending. -/
def sortNat (l : List Nat) : List Nat := l.foldr insSorted []

/-- Python sorted(list(set(l))): distinct elements in ascending order. -/
def sortedSet (l : List Nat) : List Nat := sortNat l.dedup

/-! ## A small regex engine

Each Python pattern used by the repository is compiled, by hand, to a list
of tokens; the matcher decides whether some way of consuming the input
fits the token list, which is exactly what truthiness of re.search is. -/

/-- One token of a compiled pattern: a literal run of characters, a
character class repeated between a lower and an optional upper bound, or
the end-of-input anchor. -/
inductive Tok where
  | lit : List Char → Tok
  | cls : (Char → Bool) → Nat → Option Nat → Tok
  | eos : Tok

/-- Does some consumption of a prefix of s fit the token list?  For a
class token every admissible repetition count is tried, so greediness
cannot change the truth value. -/
def matchToks : List Tok → List Char → Bool
  | [], _ => true
  | t :: ts, s =>
    match t with
    | .lit l => l.isPrefixOf s && matchToks ts (s.drop l.length)
    | .cls p m mx =>
      let w := (s.takeWhile p).length
      let hi := match mx with | none => w | some b => min b w
      (List.range (hi + 1)).any (fun k => decide (m ≤ k) && matchToks ts (s.drop k))
    | .eos => s.isEmpty && matchToks ts s

/-- A compiled pattern: tokens plus the two anchors. -/
structure Rx where
  anchorStart : Bool := false
  toks : List Tok
  anchorStop : Bool := false

/-- Python re.search truthiness: the pattern matches starting at some
position (at position zero only, when anchored at the start). -/
def rxSearch (r : Rx) (s : List Char) : Bool :=
  let ts := if r.anchorStop then r.toks ++ [Tok.eos] else r.toks
  if r.anchorStart then matchToks ts s
  else (List.range (s.length + 1)).any (fun i => matchToks ts (s.drop i))

/-- Shorthand: backslash-s repeated at least n times, unbounded. -/
def wsTok (n : Nat) : Tok := Tok.cls isPyWs n none

/-- Shorthand: a digit, repeated between m and mx times. -/
def digTok (m : Nat) (mx : Option Nat) : Tok := Tok.cls Char.isDigit m mx

/-- Shorthand: the dot, any character but a newline, at least once. -/
def dotPlusTok : Tok := Tok.cls (fun c => !(c = '\n')) 1 none

/-- Shorthand: a single optional character. -/
def optTok (c : Char) : Tok := Tok.cls (fun d => d = c) 0 (some 1)

/-- Shorthand: one-of-these characters, repeated between m and mx times. -/
def oneOfTok (cs : List Char) (m : Nat) (mx : Option Nat) : Tok :=
  Tok.cls (fun d => cs.contains d) m mx

/-- Shorthand: the character c repeated at least n times. -/
def repTok (c : Char) (n : Nat) : Tok := Tok.cls (fun d => d = c) n none

/-! ## The PDF model -/

/-- One page of a PDF, reduced to the text PyPDF2 extracts from it. -/
structure Page where
  text : List Char
deriving Repr

/-- The contiguous page indices from a (inclusive) to b (exclusive):
Python list(range(a, b)). -/
def pagesFromTo (a b : Nat) : List Nat := List.range' a (b - a)

/-! ## email_processor/app.py -/

/-- The explicit-separator patterns of detect_explicit_separators,
compiled.  The source searches them with re.IGNORECASE over text already
lowered, so lower-case literals are exact. -/
def explicit_patterns : List Rx :=
  [ { toks := [Tok.lit "separador".toList, wsTok 1, Tok.lit "de".toList, wsTok 1,
               Tok.lit "oficios".toList] },
    { toks := [repTok '=' 5, wsTok 0, Tok.lit "separador".toList] },
    { toks := [Tok.lit "nuev".toList, optTok 'a', wsTok 1, Tok.lit "oficio".toList] },
    { toks := [Tok.lit "fin".toList, wsTok 1, Tok.lit "de".toList, wsTok 1,
               Tok.lit "oficio".toList] },
    { toks := [Tok.lit "separador".toList, wsTok 1, Tok.lit "oficios".toList] },
    { anchorStart := true,
      toks := [wsTok 0, Tok.lit "separador".toList, wsTok 0], anchorStop := true },
    { anchorStart := true, toks := [wsTok 0, repTok '=' 10, wsTok 0], anchorStop := true },
    { anchorStart := true, toks := [wsTok 0, repTok '-' 10, wsTok 0], anchorStop := true } ]

/-- detect_explicit_separators: the indices of the pages whose lowered,
stripped text is under 100 characters and matches one explicit pattern. -/
def detect_explicit_separators (pages : List Page) : List Nat :=
  pages.enum.filterMap (fun pr =>
    let text := pyStrip (lowerList pr.2.text)
    if text.length < 100 && explicit_patterns.any (fun r => rxSearch r text) then
      some pr.1
    else none)

/-- The legal-document-start patterns of detect_document_starts,
compiled.  They are searched over the lowered first five lines. -/
def document_start_patterns : List Rx :=
  [ { toks := [Tok.lit "oficio".toList, wsTok 1, Tok.lit "n".toList,
               oneOfTok ['°', 'º'] 0 (some 1), wsTok 0, digTok 1 none] },
    { toks := [Tok.lit "juzgado".toList, wsTok 1, dotPlusTok, wsTok 1,
               Tok.lit "de".toList, wsTok 1, dotPlusTok] },
    { toks := [Tok.lit "tribunal".toList, wsTok 1, dotPlusTok] },
    { toks := [Tok.lit "autoridad".toList, wsTok 1, Tok.lit "competente".toList] },
    { toks := [Tok.lit "ref".toList, wsTok 0, oneOfTok [':', '.'] 0 (some 1), wsTok 0,
               Tok.lit "expediente".toList] },
    { toks := [Tok.lit "exp".toList, wsTok 0, oneOfTok [':', '.'] 0 (some 1), wsTok 0,
               digTok 1 none] },
    { toks := [Tok.lit "mediante".toList, wsTok 1, Tok.lit "la".toList, wsTok 1,
               Tok.lit "presente".toList] },
    { toks := [Tok.lit "por".toList, wsTok 1, Tok.lit "medio".toList, wsTok 1,
               Tok.lit "de".toList, wsTok 1, Tok.lit "la".toList, wsTok 1,
               Tok.lit "presente".toList] },
    { toks := [Tok.lit "fecha".toList, wsTok 0, oneOfTok [':', '.'] 0 (some 1), wsTok 0,
               digTok 1 (some 2), oneOfTok ['/', '-'] 1 (some 1), digTok 1 (some 2),
               oneOfTok ['/', '-'] 1 (some 1), digTok 2 (some 4)] },
    { toks := [Tok.lit "despacho".toList, wsTok 1, Tok.lit "judicial".toList] },
    { toks := [Tok.lit "sala".toList, wsTok 1, dotPlusTok, wsTok 1,
               Tok.lit "de".toList, wsTok 1, dotPlusTok] },
    { toks := [Tok.lit "corte".toList, wsTok 1, Tok.lit "suprema".toList] } ]

/-- detect_document_starts: page zero always, plus every later page whose
stripped text has at least 50 characters and whose lowered first five
lines match one legal-start pattern; deduplicated and sorted. -/
def detect_document_starts (pages : List Page) : List Nat :=
  let found := pages.enum.filterMap (fun pr =>
    if pr.1 = 0 then none
    else
      let text := pyStrip pr.2.text
      if text.length < 50 then none
      else
        let first_lines := lowerList (joinSpace ((splitOnNl text).take 5))
        if document_start_patterns.any (fun r => rxSearch r first_lines) then
          some pr.1
        else none)
  sortedSet (0 :: found)

/-- The accumulation loop of group_pages_by_explicit_separators: walk the
separator list keeping the first page of the pending group. -/
def groupLoop (total_pages : Nat) : Nat → List Nat → List (List Nat)
  | current, [] =>
    if current < total_pages then [pagesFromTo current total_pages] else []
  | current, sep :: rest =>
    if current < sep then
      pagesFromTo current sep :: groupLoop total_pages (sep + 1) rest
    else groupLoop total_pages (sep + 1) rest

/-- group_pages_by_explicit_separators: the runs of pages between
consecutive separator pages, empty runs dropped. -/
def group_pages_by_explicit_separators (total_pages : Nat) (separators : List Nat) :
    List (List Nat) :=
  (groupLoop total_pages 0 separators).filter (fun g => g.length > 0)

/-- The iteration of group_pages_by_document_starts: each start opens a
group that runs to the next start, the last to the end of the PDF. -/
def startsLoop (total_pages : Nat) : List Nat → List (List Nat)
  | [] => []
  | [s] =>
    if (pagesFromTo s total_pages).length > 0 then [pagesFromTo s total_pages] else []
  | s :: t :: rest =>
    (if (pagesFromTo s t).length > 0 then [pagesFromTo s t] else [])
      ++ startsLoop total_pages (t :: rest)

/-- group_pages_by_document_starts. -/
def group_pages_by_document_starts (total_pages : Nat) (starts : List Nat) :
    List (List Nat) :=
  startsLoop total_pages starts

/-- The iteration of divide_by_page_estimation: rem iterations remain, the
next group starts at current; the final iteration always runs to the last
page. -/
def divideLoop (total_pages pages_per_doc : Nat) : Nat → Nat → List (List Nat)
  | 0, _ => []
  | rem + 1, current =>
    let endp := if rem = 0 then total_pages
                else min (current + pages_per_doc) total_pages
    (if current < total_pages then
       (if (pagesFromTo current endp).length > 0 then [pagesFromTo current endp] else [])
     else [])
      ++ divideLoop total_pages pages_per_doc rem endp

/-- divide_by_page_estimation: the declared quantity (or a two-pages-per-
document guess when none is declared) fixes the number of documents, each
taking floor-many pages and the last the remainder. -/
def divide_by_page_estimation (total_pages cantidad_declarada : Nat) :
    List (List Nat) :=
  let estimated_docs :=
    if cantidad_declarada ≤ 0 then max 1 (total_pages / 2) else cantidad_declarada
  let pages_per_doc := max 1 (total_pages / estimated_docs)
  divideLoop total_pages pages_per_doc estimated_docs 0

/-- One extracted oficio of split_pdf_into_oficios_smart (the stored PDF
bytes, preview text and document classification are not modelled; the
claims under verification concern only the page ranges and counts). -/
structure Oficio where
  sequence_number : Nat
  page_range : List Nat
  page_count : Nat
deriving Repr

/-- The strategy selection inside split_pdf_into_oficios_smart: explicit
separators first, then document starts when more than one, else page
estimation from the declared quantity. -/
def oficioGroups (pages : List Page) (cantidad_declarada : Nat) : List (List Nat) :=
  let total_pages := pages.length
  let explicit_separators := detect_explicit_separators pages
  if explicit_separators ≠ [] then
    group_pages_by_explicit_separators total_pages explicit_separators
  else
    let oficio_starts := detect_document_starts pages
    if 1 < oficio_starts.length then
      group_pages_by_document_starts total_pages oficio_starts
    else
      divide_by_page_estimation total_pages cantidad_declarada

/-- split_pdf_into_oficios_smart: one oficio per detected group, numbered
from one. -/
def split_pdf_into_oficios_smart (pages : List Page) (cantidad_declarada : Nat) :
    List Oficio :=
  (oficioGroups pages cantidad_declarada).enum.map (fun pr =>
    { sequence_number := pr.1 + 1, page_range := pr.2, page_count := pr.2.length })

/-- The result record of process_pdf_with_validation_improved. -/
structure ImprovedValidation where
  success : Bool
  cantidad_declarada : Nat
  cantidad_extraida : Nat
  diferencia : Nat
  oficios : List Oficio
  error : Option String
  validation_status : String
deriving Repr

/-- process_pdf_with_validation_improved: split, then classify the
declared-against-extracted comparison. -/
def process_pdf_with_validation_improved (pages : List Page)
    (cantidad_declarada : Nat) : ImprovedValidation :=
  let oficios := split_pdf_into_oficios_smart pages cantidad_declarada
  let cantidad_extraida := oficios.length
  let base : ImprovedValidation :=
    { success := false, cantidad_declarada := cantidad_declarada,
      cantidad_extraida := cantidad_extraida,
      diferencia := ((cantidad_declarada : Int) - cantidad_extraida).natAbs,
      oficios := oficios, error := none, validation_status := "pending" }
  if cantidad_declarada = 0 then
    { base with success := true, validation_status := "no_declaration_proceeding" }
  else if cantidad_extraida = 0 then
    { base with
      validation_status := "no_oficios_found",
      error := some "No se pudieron extraer oficios del PDF. Verifique el formato del archivo." }
  else if cantidad_declarada = cantidad_extraida then
    { base with success := true, validation_status := "exact_match" }
  else if 0 < cantidad_extraida then
    { base with success := true, validation_status := "partial_match" }
  else
    { base with
      validation_status := "mismatch",
      error := some "No se encontraron oficios declarados pero no extraidos." }

/-! ## s3_document_processor/app.py -/

/-- The separator test of both count_separators_in_pdf and
split_pdf_into_oficios_skip_config: the upper-cased page text contains
SEPARADOR DE OFICIOS and the raw text contains four equal signs. -/
def is_separator_page (text : List Char) : Bool :=
  containsSub "SEPARADOR DE OFICIOS".toList (upperList text)
    && containsSub "====".toList text

/-- The first scanned page: page one is the configuration page and is
skipped whenever the PDF has more than one page. -/
def startPage (total_pages : Nat) : Nat := if 1 < total_pages then 1 else 0

/-- The separator pages found when scanning from the start page; both the
counting pass and the splitting pass compute exactly this list. -/
def scanSeparators (pages : List Page) : List Nat :=
  (pagesFromTo (startPage pages.length) pages.length).filter
    (fun i => is_separator_page ((pages.getD i ⟨[]⟩).text))

/-- count_separators_in_pdf: how many scanned pages are separators. -/
def count_separators_in_pdf (pages : List Page) : Nat :=
  (scanSeparators pages).length

/-- The range-building loop of split_by_separators: prev is the first page
of the pending oficio; each separator closes the pending range when it is
non-empty. -/
def sepRanges (total_pages : Nat) : Nat → List Nat → List (Nat × Nat)
  | prev, [] => if prev < total_pages then [(prev, total_pages - 1)] else []
  | prev, sep :: rest =>
    if prev < sep then (prev, sep - 1) :: sepRanges total_pages (sep + 1) rest
    else sepRanges total_pages (sep + 1) rest

/-- split_by_separators: one oficio per non-empty inclusive page range
between separators. -/
def split_by_separators (separador_pages : List Nat) (start_page total_pages : Nat) :
    List (List Nat) :=
  (sepRanges total_pages start_page separador_pages).map
    (fun r => pagesFromTo r.1 (r.2 + 1))

/-- split_pdf_into_oficios_skip_config: skip the configuration page, split
at separator pages, and fall back to one oficio per page when no separator
is found.  Each oficio is modelled by its list of page indices. -/
def split_pdf_into_oficios_skip_config (pages : List Page) : List (List Nat) :=
  let total_pages := pages.length
  let start_page := startPage total_pages
  let separador_pages := scanSeparators pages
  if separador_pages ≠ [] then
    split_by_separators separador_pages start_page total_pages
  else
    (pagesFromTo start_page total_pages).map (fun i => [i])

/-- The result record of validate_quantity. -/
structure QuantityValidation where
  success : Bool
  error : Option String
  cantidad_declarada : Nat
  cantidad_extraida : Nat
  diferencia : Nat
  validation_status : String
deriving Repr

/-- validate_quantity: no declaration proceeds, no extracted oficios fail,
an exact match proceeds, and any other difference is a mismatch warning. -/
def validate_quantity (cantidad_declarada cantidad_extraida : Nat) :
    QuantityValidation :=
  let base : QuantityValidation :=
    { success := true, error := none, cantidad_declarada := cantidad_declarada,
      cantidad_extraida := cantidad_extraida,
      diferencia := ((cantidad_declarada : Int) - cantidad_extraida).natAbs,
      validation_status := "pending" }
  if cantidad_declarada = 0 then
    { base with validation_status := "no_declaration_proceeding" }
  else if cantidad_extraida = 0 then
    { base with
      success := false,
      validation_status := "no_oficios_found",
      error := some "No se pudieron extraer oficios del PDF. Verifique el formato del archivo." }
  else if cantidad_declarada = cantidad_extraida then
    { base with validation_status := "exact_match" }
  else
    { base with
      validation_status := "mismatch_warning",
      error := some "Cantidad de oficios no coincide. Procesando oficios encontrados." }

/-- The configuration extracted from the first page (only the fields the
validation logic reads are modelled). -/
structure ConfigData where
  cantidad_oficios : Nat
  empresa : String
deriving Repr

/-- The result record of validate_config_data. -/
structure ConfigValidation where
  success : Bool
  error : Option String
  warnings : List String
  missing_fields : List String
deriving Repr

/-- validate_config_data: the declared quantity must be positive and the
company name at least three characters; other problems only warn. -/
def validate_config_data (c : ConfigData) : ConfigValidation :=
  let missing_fields :=
    (if c.cantidad_oficios = 0 then ["cantidad_oficios"] else [])
      ++ (if c.empresa = "" || c.empresa = "No especificado" then ["empresa"] else [])
  let success1 := ¬ (c.cantidad_oficios ≤ 0)
  let error1 : Option String :=
    if c.cantidad_oficios ≤ 0 then some "La cantidad de oficios debe ser mayor a 0"
    else none
  let warnings1 :=
    if 1000 < c.cantidad_oficios then ["Cantidad de oficios muy alta, verificar"]
    else []
  let success2 := if c.empresa.length < 3 then false else success1
  let error2 :=
    if c.empresa.length < 3 then
      some "El nombre de la empresa debe tener al menos 3 caracteres"
    else error1
  let warnings2 :=
    warnings1 ++ (if missing_fields ≠ [] && success2 then ["Campos faltantes"] else [])
  { success := success2, error := error2, warnings := warnings2,
    missing_fields := missing_fields }

/-- The outcome dictionary of process_pdf_from_s3 (the keys the caller
reads). -/
structure PdfProcessResult where
  success : Bool
  error : Option String
  oficios : List (List Nat)
  has_config_data : Bool
  validation_status : String
deriving Repr

/-- The side effects of the S3 direct path: individual oficio PDFs stored
in S3, whether the splitting function ran, jobs sent to the OCR queue, and
whether the validation-error notification was sent. -/
structure S3Effects where
  stored_oficios : List (List Nat)
  split_called : Bool
  queued_jobs : Nat
  notified : Bool
deriving Repr

/-- No side effects yet. -/
def noEffects : S3Effects :=
  { stored_oficios := [], split_called := false, queued_jobs := 0, notified := false }

/-- process_pdf_from_s3, from the point where the PDF bytes and the
extracted first-page configuration are in hand: validate the
configuration, validate the declared quantity against the separator count
plus one, and only then split and store the individual oficios. -/
def process_pdf_from_s3 (pages : List Page) (config_data : ConfigData) :
    PdfProcessResult × S3Effects :=
  let config_validation := validate_config_data config_data
  if config_validation.success = false then
    ({ success := false, error := config_validation.error, oficios := [],
       has_config_data := true, validation_status := "" }, noEffects)
  else
    let cantidad_declarada := config_data.cantidad_oficios
    let separador_count := count_separators_in_pdf pages
    let cantidad_extraida := separador_count + 1
    let quantity_validation := validate_quantity cantidad_declarada cantidad_extraida
    if quantity_validation.validation_status = "mismatch_warning" then
      ({ success := false,
         error := some "Discrepancia en cantidad de oficios. Proceso detenido.",
         oficios := [], has_config_data := true,
         validation_status := "mismatch_warning" }, noEffects)
    else
      let oficios := split_pdf_into_oficios_skip_config pages
      if oficios = [] then
        ({ success := false, error := some "No se pudieron extraer oficios del PDF",
           oficios := [], has_config_data := true, validation_status := "" },
         { noEffects with split_called := true })
      else
        ({ success := true, error := none, oficios := oficios,
           has_config_data := true,
           validation_status := quantity_validation.validation_status },
         { stored_oficios := oficios, split_called := true, queued_jobs := 0,
           notified := false })

/-- Does the object key name a PDF (case-insensitive extension test)? -/
def isPdfKey (object_key : String) : Bool :=
  ".pdf".toList.isSuffixOf (lowerList object_key.toList)

/-- The outcome of process_s3_event for one record. -/
structure EventResult where
  success : Bool
  skipped : Bool
deriving Repr

/-- process_s3_event: skip non-PDF keys; on a processing failure that
carries configuration data, send the validation-error notification; on
success, send one OCR job per stored oficio. -/
def process_s3_event (object_key : String) (pages : List Page)
    (config_data : ConfigData) : EventResult × S3Effects :=
  if isPdfKey object_key = false then
    ({ success := true, skipped := true }, noEffects)
  else
    let pr := process_pdf_from_s3 pages config_data
    if pr.1.success = false then
      ({ success := false, skipped := false },
       if pr.1.has_config_data then { pr.2 with notified := true } else pr.2)
    else
      ({ success := true, skipped := false },
       { pr.2 with queued_jobs := pr.1.oficios.length })

/-! ## services/pdf_service.py -/

/-- The substring patterns of PDFService._find_separator_pages (plain
substring containment, not regular expressions). -/
def separator_patterns : List (List Char) :=
  ["separador de oficios".toList, "=====================".toList,
   "separador".toList, "divisor".toList, "---".toList, "===".toList]

/-- PDFService._find_separator_pages: a page is a separator when its
lowered text contains one of the patterns and its stripped text is under
200 characters.  The source loops over the patterns and only stops on a
pattern that also passes the length test; as the length does not depend on
the pattern this is the conjunction written here. -/
def find_separator_pages (pages : List Page) : List Nat :=
  pages.enum.filterMap (fun pr =>
    let text := lowerList pr.2.text
    if separator_patterns.any
        (fun pat => containsSub pat text && decide ((pyStrip text).length < 200)) then
      some pr.1
    else none)

/-! ## shared/validators.py -/

/-- The ValidationResult dataclass. -/
structure ValidationResult where
  success : Bool
  error : String := ""
  warning : String := ""
deriving Repr

/-- PDFValidator.MAX_FILE_SIZE: fifty megabytes. -/
def MAX_FILE_SIZE : Nat := 50 * 1024 * 1024

/-- PDFValidator.MIN_FILE_SIZE: one kilobyte. -/
def MIN_FILE_SIZE : Nat := 1024

/-- The five header bytes of a PDF file, percent P D F dash. -/
def pdfHeader : List Nat := [37, 80, 68, 70, 45]

/-- The five trailer-marker bytes, percent percent E O F. -/
def pdfEofMarker : List Nat := [37, 37, 69, 79, 70]

/-- PDFValidator.validate_pdf_content over the raw bytes: size window,
header, then EOF marker, in that order. -/
def validate_pdf_content (pdf_content : List Nat) : ValidationResult :=
  if MAX_FILE_SIZE < pdf_content.length then
    { success := false,
      error := "PDF too large: " ++ toString pdf_content.length
        ++ " bytes (max: " ++ toString MAX_FILE_SIZE ++ ")" }
  else if pdf_content.length < MIN_FILE_SIZE then
    { success := false,
      error := "PDF too small: " ++ toString pdf_content.length
        ++ " bytes (min: " ++ toString MIN_FILE_SIZE ++ ")" }
  else if pdfHeader.isPrefixOf pdf_content = false then
    { success := false, error := "Invalid PDF file: missing PDF header" }
  else if containsSub pdfEofMarker pdf_content = false then
    { success := false, error := "Invalid PDF file: missing EOF marker" }
  else
    { success := true }

/-- OficiosValidator.validate_count over the extracted count (the length
of the oficios list) and the declared count from the metadata.  The
tolerance in the source is max(1, int(cantidad_declarada * 0.1)); for
every count below 2 to the 53rd the float product truncates to the integer
tenth, so the tolerance is embedded as max 1 (cantidad_declarada / 10). -/
def validate_count (cantidad_extraida cantidad_declarada : Nat) : ValidationResult :=
  if cantidad_extraida = 0 then
    { success := false, error := "No se pudieron extraer oficios del PDF" }
  else if cantidad_declarada = 0 then
    { success := true, warning := "No se declaro cantidad, procesando oficios encontrados" }
  else if cantidad_extraida = cantidad_declarada then
    { success := true }
  else
    let tolerance := max 1 (cantidad_declarada / 10)
    let difference := ((cantidad_extraida : Int) - cantidad_declarada).natAbs
    if difference ≤ tolerance then
      { success := true, warning := "Diferencia menor dentro de tolerancia" }
    else
      { success := false, error := "Diferencia excede tolerancia" }

/-! ## retry/app.py -/

/-- A failed job as the retry poller reads it from the jobs table: the
retry count, the error timestamp (minutes; none when the record has
neither error_at nor updated_at) and the recorded error message. -/
structure RetryJob where
  retry_count : Nat
  error_at : Option Nat
  error_message : List Char
deriving Repr

/-- The retryable-error markers of should_retry_job. -/
def retryable_errors : List (List Char) :=
  ["timeout".toList, "capacity exceeded".toList, "429".toList,
   "rate limit".toList, "connection".toList, "temporary".toList,
   "unavailable".toList]

/-- The maximum number of retries of should_retry_job. -/
def max_retries : Nat := 3

/-- The minimum wait enforced before retry attempt retry_count + 1:
timedelta(minutes = 5 * (retry_count + 1)), in minutes. -/
def min_wait_time (retry_count : Nat) : Nat := 5 * (retry_count + 1)

/-- should_retry_job at the poll instant now (minutes): under the retry
cap, past the minimum wait since the error, and a retryable error
message.  Python compares now minus the error time, a negative span, to
the positive wait when the clock reads before the error; truncated
subtraction gives zero there, below the wait as well. -/
def should_retry_job (job : RetryJob) (now : Nat) : Bool :=
  if max_retries ≤ job.retry_count then false
  else
    let wait_over :=
      match job.error_at with
      | none => true
      | some t => decide (¬ (now - t < min_wait_time job.retry_count))
    if wait_over = false then false
    else
      retryable_errors.any (fun e => containsSub e (lowerList job.error_message))

/-! ## Helper lemmas -/

/-- Mapping the page range out of the oficios built by
split_pdf_into_oficios_smart returns exactly the selected groups. -/
lemma smart_map_page_range (pages : List Page) (cantidad_declarada : Nat) :
    (split_pdf_into_oficios_smart pages cantidad_declarada).map Oficio.page_range
      = oficioGroups pages cantidad_declarada := by
  unfold split_pdf_into_oficios_smart
  rw [List.map_map]
  have h : (Oficio.page_range ∘ fun pr : Nat × List Nat =>
      ({ sequence_number := pr.1 + 1, page_range := pr.2,
         page_count := pr.2.length } : Oficio)) = Prod.snd := by
    funext pr
    rfl
  rw [h, List.enum_map_snd]

/-- Adjacent page ranges concatenate. -/
lemma pagesFromTo_append (a b c : Nat) (hab : a ≤ b) (hbc : b ≤ c) :
    pagesFromTo a b ++ pagesFromTo b c = pagesFromTo a c := by
  unfold pagesFromTo
  have h := List.range'_append_1 a (b - a) (c - b)
  rw [show a + (b - a) = b by omega] at h
  rw [h, show c - b + (b - a) = c - a by omega]

/-- A page range is a contiguous run. -/
lemma pagesFromTo_isRange (a b : Nat) :
    ∃ s, pagesFromTo a b = List.range' s (pagesFromTo a b).length :=
  ⟨a, by simp [pagesFromTo]⟩

/-- The length of a page range. -/
lemma pagesFromTo_length (a b : Nat) : (pagesFromTo a b).length = b - a := by
  simp [pagesFromTo]

/-- Membership in a page range. -/
lemma mem_pagesFromTo {p a b : Nat} : p ∈ pagesFromTo a b ↔ a ≤ p ∧ p < b := by
  unfold pagesFromTo
  rw [List.mem_range'_1]
  omega

/-- The division loop of divide_by_page_estimation, with at least one
iteration left and room for a full group per non-final iteration,
produces exactly rem groups: contiguous, of pages_per_doc pages except
the last, jointly covering current up to the end. -/
lemma divideLoop_spec (total_pages pages_per_doc : Nat) (hppd : 1 ≤ pages_per_doc) :
    ∀ (rem current : Nat), 1 ≤ rem →
      current + (rem - 1) * pages_per_doc < total_pages →
      (divideLoop total_pages pages_per_doc rem current).length = rem ∧
      (divideLoop total_pages pages_per_doc rem current).flatten
        = pagesFromTo current total_pages ∧
      (∀ g ∈ (divideLoop total_pages pages_per_doc rem current).dropLast,
        g.length = pages_per_doc) ∧
      (∀ g ∈ divideLoop total_pages pages_per_doc rem current,
        ∃ s, g = List.range' s g.length) := by
  intro rem
  induction rem with
  | zero => intro current h1 h2; exact absurd h1 (by omega)
  | succ r ih =>
    intro current h1 h2
    by_cases hr : r = 0
    · subst hr
      have hcur : current < total_pages := by simpa using h2
      have hne : 0 < (pagesFromTo current total_pages).length := by
        rw [pagesFromTo_length]
        omega
      have hres : divideLoop total_pages pages_per_doc 1 current
          = [pagesFromTo current total_pages] := by
        simp [divideLoop, hcur, hne]
      rw [hres]
      refine ⟨rfl, by simp, ?_, ?_⟩
      · intro g hg
        simp at hg
      · intro g hg
        rw [List.mem_singleton] at hg
        subst hg
        exact pagesFromTo_isRange _ _
    · have hrpos : 1 ≤ r := Nat.pos_of_ne_zero hr
      have hle : pages_per_doc ≤ r * pages_per_doc :=
        Nat.le_mul_of_pos_left _ hrpos
      have hmulsplit : (r - 1) * pages_per_doc + pages_per_doc = r * pages_per_doc := by
        cases r with
        | zero => exact absurd rfl hr
        | succ r2 =>
          simp [Nat.succ_mul]
      have hstep : current + pages_per_doc ≤ total_pages := by
        have h2r : current + r * pages_per_doc < total_pages := by simpa using h2
        omega
      have hend : min (current + pages_per_doc) total_pages
          = current + pages_per_doc := by omega
      have hcur : current < total_pages := by omega
      have hlen : 0 < (pagesFromTo current (current + pages_per_doc)).length := by
        rw [pagesFromTo_length]
        omega
      have hres : divideLoop total_pages pages_per_doc (r + 1) current
          = pagesFromTo current (current + pages_per_doc)
            :: divideLoop total_pages pages_per_doc r (current + pages_per_doc) := by
        simp [divideLoop, hr, hend, hcur, hlen]
      have ihh := ih (current + pages_per_doc) hrpos (by
        have h2r : current + r * pages_per_doc < total_pages := by simpa using h2
        omega)
      obtain ⟨il, ij, idrop, irange⟩ := ihh
      have htail_ne : divideLoop total_pages pages_per_doc r (current + pages_per_doc)
          ≠ [] := by
        intro hnil
        rw [hnil] at il
        simp at il
        omega
      rw [hres]
      refine ⟨by simp [il], ?_, ?_, ?_⟩
      · rw [List.flatten_cons, ij]
        exact pagesFromTo_append _ _ _ (by omega) hstep
      · intro g hg
        rw [List.dropLast_cons_of_ne_nil htail_ne, List.mem_cons] at hg
        rcases hg with hg | hg
        · subst hg
          rw [pagesFromTo_length]
          omega
        · exact idrop g hg
      · intro g hg
        rw [List.mem_cons] at hg
        rcases hg with hg | hg
        · subst hg
          exact pagesFromTo_isRange _ _
        · exact irange g hg

/-! ## The claims -/

/-- C1: split_pdf_into_oficios_smart selects exactly one of three
strategies in a fixed fallback order: explicit separator pages whenever
detect_explicit_separators is non-empty; otherwise detected document
starts whenever detect_document_starts finds more than one start page;
otherwise page-count estimation from the declared quantity. -/
theorem smart_split_strategy_order (pages : List Page) (cantidad_declarada : Nat) :
    (detect_explicit_separators pages ≠ [] →
      (split_pdf_into_oficios_smart pages cantidad_declarada).map Oficio.page_range
        = group_pages_by_explicit_separators pages.length
            (detect_explicit_separators pages)) ∧
    (detect_explicit_separators pages = [] →
      1 < (detect_document_starts pages).length →
      (split_pdf_into_oficios_smart pages cantidad_declarada).map Oficio.page_range
        = group_pages_by_document_starts pages.length (detect_document_starts pages)) ∧
    (detect_explicit_separators pages = [] →
      (detect_document_starts pages).length ≤ 1 →
      (split_pdf_into_oficios_smart pages cantidad_declarada).map Oficio.page_range
        = divide_by_page_estimation pages.length cantidad_declarada) := by
  simp only [smart_map_page_range]
  unfold oficioGroups
  refine ⟨fun h1 => ?_, fun h1 h2 => ?_, fun h1 h2 => ?_⟩
  · simp [h1]
  · simp [h1, h2]
  · simp [h1, Nat.not_lt.mpr h2]

/-- Closed instance of C1: a one-page PDF whose page is an explicit
separator page takes the first strategy. -/
theorem smart_split_strategy_order_witness :
    detect_explicit_separators [⟨"separador de oficios".toList⟩] ≠ [] ∧
    (split_pdf_into_oficios_smart [⟨"separador de oficios".toList⟩] 0).map
        Oficio.page_range
      = group_pages_by_explicit_separators 1
          (detect_explicit_separators [⟨"separador de oficios".toList⟩]) :=
  ⟨by decide,
   (smart_split_strategy_order [⟨"separador de oficios".toList⟩] 0).1 (by decide)⟩

/-- C2: process_pdf_with_validation_improved classifies the declared
count d against the extracted count e with a fixed policy: d = 0 gives
success with status no_declaration_proceeding; otherwise e = 0 gives
failure with status no_oficios_found and an error message; otherwise
d = e gives success with status exact_match; otherwise success with
status partial_match. -/
theorem improved_validation_policy (pages : List Page) (cantidad_declarada : Nat) :
    (cantidad_declarada = 0 →
      (process_pdf_with_validation_improved pages cantidad_declarada).success = true ∧
      (process_pdf_with_validation_improved pages cantidad_declarada).validation_status
        = "no_declaration_proceeding") ∧
    (cantidad_declarada ≠ 0 →
      (split_pdf_into_oficios_smart pages cantidad_declarada).length = 0 →
      (process_pdf_with_validation_improved pages cantidad_declarada).success = false ∧
      (process_pdf_with_validation_improved pages cantidad_declarada).validation_status
        = "no_oficios_found" ∧
      (process_pdf_with_validation_improved pages cantidad_declarada).error ≠ none) ∧
    (cantidad_declarada ≠ 0 →
      cantidad_declarada = (split_pdf_into_oficios_smart pages cantidad_declarada).length →
      (process_pdf_with_validation_improved pages cantidad_declarada).success = true ∧
      (process_pdf_with_validation_improved pages cantidad_declarada).validation_status
        = "exact_match") ∧
    (cantidad_declarada ≠ 0 →
      (split_pdf_into_oficios_smart pages cantidad_declarada).length ≠ 0 →
      cantidad_declarada ≠ (split_pdf_into_oficios_smart pages cantidad_declarada).length →
      (process_pdf_with_validation_improved pages cantidad_declarada).success = true ∧
      (process_pdf_with_validation_improved pages cantidad_declarada).validation_status
        = "partial_match") := by
  simp only [process_pdf_with_validation_improved]
  refine ⟨fun h1 => ?_, fun h1 h2 => ?_, fun h1 h2 => ?_, fun h1 h2 h3 => ?_⟩
  · rw [if_pos h1]
    exact ⟨rfl, rfl⟩
  · rw [if_neg h1, if_pos h2]
    exact ⟨rfl, rfl, by simp⟩
  · have hne : ¬ ((split_pdf_into_oficios_smart pages cantidad_declarada).length = 0) := by
      omega
    rw [if_neg h1, if_neg hne, if_pos h2]
    exact ⟨rfl, rfl⟩
  · rw [if_neg h1, if_neg h2, if_neg h3, if_pos (Nat.pos_of_ne_zero h2)]
    exact ⟨rfl, rfl⟩

/-- Closed instance of C2: one page, no declared count, so the
no-declaration policy proceeds. -/
theorem improved_validation_policy_witness :
    (process_pdf_with_validation_improved [⟨"hola".toList⟩] 0).success = true ∧
    (process_pdf_with_validation_improved [⟨"hola".toList⟩] 0).validation_status
      = "no_declaration_proceeding" :=
  (improved_validation_policy [⟨"hola".toList⟩] 0).1 rfl

/-- C4: the retry poller enforces, before allowing retry attempt
retry_count + 1, a minimum wait since the recorded error time; the cap is
max_retries = 3 attempts; and over the capped range each successive
minimum wait is at least three halves of the previous one, a fixed
constant multiple greater than one. -/
theorem retry_backoff_policy :
    (∀ (job : RetryJob) (now : Nat), should_retry_job job now = true →
      job.retry_count < max_retries ∧
      ∀ t, job.error_at = some t → min_wait_time job.retry_count ≤ now - t) ∧
    (∀ k, k + 1 < max_retries →
      min_wait_time k < min_wait_time (k + 1) ∧
      3 * min_wait_time k ≤ 2 * min_wait_time (k + 1)) := by
  constructor
  · intro job now h
    unfold should_retry_job at h
    by_cases hc : max_retries ≤ job.retry_count
    · simp [hc] at h
    · refine ⟨Nat.lt_of_not_le hc, fun t ht => ?_⟩
      simp only [hc, if_false, ht] at h
      by_cases hw : now - t < min_wait_time job.retry_count
      · simp [hw] at h
      · exact Nat.le_of_not_lt hw
  · intro k hk
    unfold max_retries at hk
    unfold min_wait_time
    omega

/-- Closed instance of C4: a job one retry in with a retryable timeout,
polled ten minutes after the error, is allowed; the enforced wait and the
three-halves growth evaluate at the concrete inputs. -/
theorem retry_backoff_policy_witness :
    (⟨1, some 100, "connection timeout".toList⟩ : RetryJob).retry_count < max_retries ∧
    min_wait_time 1 ≤ 110 - 100 ∧
    3 * min_wait_time 0 ≤ 2 * min_wait_time 1 :=
  ⟨(retry_backoff_policy.1 ⟨1, some 100, "connection timeout".toList⟩ 110 (by decide)).1,
   (retry_backoff_policy.1 ⟨1, some 100, "connection timeout".toList⟩ 110 (by decide)).2
     100 rfl,
   (retry_backoff_policy.2 0 (by decide)).2⟩

/-- C9: OficiosValidator.validate_count succeeds exactly when the
extracted count is positive and either no count was declared or the
absolute difference is within the tolerance of ten percent of the
declared count, at least one. -/
theorem validate_count_tolerance (cantidad_extraida cantidad_declarada : Nat) :
    (validate_count cantidad_extraida cantidad_declarada).success = true ↔
    (0 < cantidad_extraida ∧
      (cantidad_declarada = 0 ∨
        ((cantidad_extraida : Int) - cantidad_declarada).natAbs
          ≤ max 1 (cantidad_declarada / 10))) := by
  unfold validate_count
  by_cases h1 : cantidad_extraida = 0
  · simp [h1]
  by_cases h2 : cantidad_declarada = 0
  · simp [h1, h2, Nat.pos_of_ne_zero h1]
  by_cases h3 : cantidad_extraida = cantidad_declarada
  · subst h3
    simp [h1, h2, Nat.pos_of_ne_zero h1]
  · simp only [if_neg h1, if_neg h2, if_neg h3]
    by_cases h4 : ((cantidad_extraida : Int) - cantidad_declarada).natAbs
        ≤ max 1 (cantidad_declarada / 10)
    · simp [h4, Nat.pos_of_ne_zero h1]
    · simp [h4, h2]

/-- C10: PDFValidator.validate_pdf_content succeeds exactly when the
content is between one kilobyte and fifty megabytes, starts with the PDF
header bytes and contains the EOF marker bytes; each violated condition,
taken in the order of the checks, fails with a message naming it. -/
theorem validate_pdf_content_policy (pdf_content : List Nat) :
    ((validate_pdf_content pdf_content).success = true ↔
      (MIN_FILE_SIZE ≤ pdf_content.length ∧ pdf_content.length ≤ MAX_FILE_SIZE ∧
        pdfHeader.isPrefixOf pdf_content = true ∧
        containsSub pdfEofMarker pdf_content = true)) ∧
    (MAX_FILE_SIZE < pdf_content.length →
      validate_pdf_content pdf_content =
        { success := false,
          error := "PDF too large: " ++ toString pdf_content.length
            ++ " bytes (max: " ++ toString MAX_FILE_SIZE ++ ")" }) ∧
    (pdf_content.length < MIN_FILE_SIZE →
      validate_pdf_content pdf_content =
        { success := false,
          error := "PDF too small: " ++ toString pdf_content.length
            ++ " bytes (min: " ++ toString MIN_FILE_SIZE ++ ")" }) ∧
    (MIN_FILE_SIZE ≤ pdf_content.length → pdf_content.length ≤ MAX_FILE_SIZE →
      pdfHeader.isPrefixOf pdf_content = false →
      validate_pdf_content pdf_content =
        { success := false, error := "Invalid PDF file: missing PDF header" }) ∧
    (MIN_FILE_SIZE ≤ pdf_content.length → pdf_content.length ≤ MAX_FILE_SIZE →
      pdfHeader.isPrefixOf pdf_content = true →
      containsSub pdfEofMarker pdf_content = false →
      validate_pdf_content pdf_content =
        { success := false, error := "Invalid PDF file: missing EOF marker" }) := by
  have hmm : MIN_FILE_SIZE < MAX_FILE_SIZE := by decide
  refine ⟨?_, fun h => ?_, fun h => ?_, fun ha hb hc => ?_, fun ha hb hc hd => ?_⟩
  · unfold validate_pdf_content
    split_ifs with h1 h2 h3 h4
    · constructor
      · intro hfalse
        exact absurd hfalse (by simp)
      · rintro ⟨ha, hb, hc, hd⟩
        omega
    · constructor
      · intro hfalse
        exact absurd hfalse (by simp)
      · rintro ⟨ha, hb, hc, hd⟩
        omega
    · constructor
      · intro hfalse
        exact absurd hfalse (by simp)
      · rintro ⟨ha, hb, hc, hd⟩
        rw [hc] at h3
        exact Bool.noConfusion h3
    · constructor
      · intro hfalse
        exact absurd hfalse (by simp)
      · rintro ⟨ha, hb, hc, hd⟩
        rw [hd] at h4
        exact Bool.noConfusion h4
    · constructor
      · intro _
        refine ⟨by omega, by omega, ?_, ?_⟩
        · simpa using h3
        · simpa using h4
      · intro _
        rfl
  · unfold validate_pdf_content
    rw [if_pos h]
  · unfold validate_pdf_content
    rw [if_neg (by omega), if_pos h]
  · unfold validate_pdf_content
    rw [if_neg (by omega), if_neg (by omega), if_pos hc]
  · unfold validate_pdf_content
    rw [if_neg (by omega), if_neg (by omega),
      if_neg (by rw [hc]; exact Bool.noConfusion), if_pos hd]

/-- Closed instance of C10: a single header byte is rejected as too
small, with the message naming the size condition. -/
theorem validate_pdf_content_policy_witness :
    validate_pdf_content [37] =
      { success := false, error := "PDF too small: 1 bytes (min: 1024)" } :=
  (validate_pdf_content_policy [37]).2.2.1 (by decide)

/-- C8: the separator detectors report a page only when its extracted
text matches one of the fixed separator patterns and is under the
short-page threshold: 100 characters for detect_explicit_separators, 200
for PDFService._find_separator_pages. -/
theorem separator_detectors_short_and_matching (pages : List Page) (p : Nat) :
    (p ∈ detect_explicit_separators pages →
      ∃ pg, pages.get? p = some pg ∧
        (pyStrip (lowerList pg.text)).length < 100 ∧
        explicit_patterns.any
          (fun r => rxSearch r (pyStrip (lowerList pg.text))) = true) ∧
    (p ∈ find_separator_pages pages →
      ∃ pg, pages.get? p = some pg ∧
        (pyStrip (lowerList pg.text)).length < 200 ∧
        separator_patterns.any
          (fun pat => containsSub pat (lowerList pg.text)) = true) := by
  constructor
  · intro hmem
    unfold detect_explicit_separators at hmem
    simp only [List.mem_filterMap] at hmem
    obtain ⟨pr, hpr, hcond⟩ := hmem
    split at hcond
    next hc =>
      obtain rfl : pr.1 = p := Option.some.inj hcond
      rw [Bool.and_eq_true] at hc
      refine ⟨pr.2, ?_, by simpa using hc.1, hc.2⟩
      rw [List.get?_eq_getElem?]
      exact List.mem_enum_iff_getElem?.1 hpr
    next =>
      exact absurd hcond (by simp)
  · intro hmem
    unfold find_separator_pages at hmem
    simp only [List.mem_filterMap] at hmem
    obtain ⟨pr, hpr, hcond⟩ := hmem
    split at hcond
    next hc =>
      obtain rfl : pr.1 = p := Option.some.inj hcond
      obtain ⟨pat, hpat, hboth⟩ := List.any_eq_true.1 hc
      rw [Bool.and_eq_true] at hboth
      refine ⟨pr.2, ?_, by simpa using hboth.2, ?_⟩
      · rw [List.get?_eq_getElem?]
        exact List.mem_enum_iff_getElem?.1 hpr
      · exact List.any_eq_true.2 ⟨pat, hpat, hboth.1⟩
    next =>
      exact absurd hcond (by simp)

/-- Closed instance of C8: page zero of a one-page separator PDF is
reported and satisfies both conditions of each detector. -/
theorem separator_detectors_witness :
    (∃ pg, [(⟨"separador de oficios".toList⟩ : Page)].get? 0 = some pg ∧
      (pyStrip (lowerList pg.text)).length < 100 ∧
      explicit_patterns.any
        (fun r => rxSearch r (pyStrip (lowerList pg.text))) = true) ∧
    (∃ pg, [(⟨"separador de oficios".toList⟩ : Page)].get? 0 = some pg ∧
      (pyStrip (lowerList pg.text)).length < 200 ∧
      separator_patterns.any
        (fun pat => containsSub pat (lowerList pg.text)) = true) :=
  ⟨(separator_detectors_short_and_matching [⟨"separador de oficios".toList⟩] 0).1
    (by decide),
   (separator_detectors_short_and_matching [⟨"separador de oficios".toList⟩] 0).2
    (by decide)⟩

/-- C3: in the S3 direct path, a positive declared count that differs
from the separator-derived count yields a mismatch warning and halts
atomically before splitting: the processing fails, the splitting function
is never called, no individual oficio PDF is stored, no OCR job is
queued, and the event handler sends the validation-error notification. -/
theorem s3_mismatch_halts_atomically (object_key : String) (pages : List Page)
    (config_data : ConfigData)
    (hk : isPdfKey object_key = true)
    (hcv : (validate_config_data config_data).success = true)
    (hd : 0 < config_data.cantidad_oficios)
    (hne : config_data.cantidad_oficios ≠ count_separators_in_pdf pages + 1) :
    (validate_quantity config_data.cantidad_oficios
        (count_separators_in_pdf pages + 1)).validation_status = "mismatch_warning" ∧
    (process_pdf_from_s3 pages config_data).1.success = false ∧
    (process_pdf_from_s3 pages config_data).2.split_called = false ∧
    (process_pdf_from_s3 pages config_data).2.stored_oficios = [] ∧
    (process_s3_event object_key pages config_data).2.queued_jobs = 0 ∧
    (process_s3_event object_key pages config_data).2.notified = true := by
  have hq : (validate_quantity config_data.cantidad_oficios
      (count_separators_in_pdf pages + 1)).validation_status = "mismatch_warning" := by
    unfold validate_quantity
    rw [if_neg (by omega), if_neg (by omega), if_neg hne]
  have hp : process_pdf_from_s3 pages config_data =
      ({ success := false,
         error := some "Discrepancia en cantidad de oficios. Proceso detenido.",
         oficios := [], has_config_data := true,
         validation_status := "mismatch_warning" }, noEffects) := by
    unfold process_pdf_from_s3
    rw [if_neg (by simp [hcv]), if_pos hq]
  have he : process_s3_event object_key pages config_data =
      ({ success := false, skipped := false }, { noEffects with notified := true }) := by
    unfold process_s3_event
    rw [if_neg (by simp [hk]), hp]
    rfl
  exact ⟨hq, by rw [hp], by rw [hp] <;> rfl, by rw [hp] <;> rfl,
    by rw [he] <;> rfl, by rw [he] <;> rfl⟩

/-- Closed instance of C3: a two-oficio declaration over a PDF with no
separator page halts with the mismatch warning and no side effect. -/
theorem s3_mismatch_halts_atomically_witness :
    (validate_quantity 2 (count_separators_in_pdf [⟨"config".toList⟩] + 1)).validation_status
      = "mismatch_warning" ∧
    (process_pdf_from_s3 [⟨"config".toList⟩] ⟨2, "ACME"⟩).1.success = false ∧
    (process_pdf_from_s3 [⟨"config".toList⟩] ⟨2, "ACME"⟩).2.split_called = false ∧
    (process_pdf_from_s3 [⟨"config".toList⟩] ⟨2, "ACME"⟩).2.stored_oficios = [] ∧
    (process_s3_event "b.pdf" [⟨"config".toList⟩] ⟨2, "ACME"⟩).2.queued_jobs = 0 ∧
    (process_s3_event "b.pdf" [⟨"config".toList⟩] ⟨2, "ACME"⟩).2.notified = true :=
  s3_mismatch_halts_atomically "b.pdf" [⟨"config".toList⟩] ⟨2, "ACME"⟩
    (by decide) (by decide) (by decide) (by decide)

/-- C5 as stated fails: with one page and a declared quantity of two,
divide_by_page_estimation returns one group, not two. -/
theorem divide_by_page_estimation_short_pdf_counterexample :
    (divide_by_page_estimation 1 2).length ≠ 2 := by decide

/-- C5 amended: when the declared quantity n satisfies 1 ≤ n ≤ total
pages p, divide_by_page_estimation returns exactly n contiguous groups,
each of floor(p / n) pages except the last which takes all remaining
pages, together covering every page index below p exactly once.  (When
p < n the function instead returns one singleton group per page up to p.) -/
theorem divide_by_page_estimation_even_split (total_pages cantidad_declarada : Nat)
    (h1 : 1 ≤ cantidad_declarada) (h2 : cantidad_declarada ≤ total_pages) :
    (divide_by_page_estimation total_pages cantidad_declarada).length
      = cantidad_declarada ∧
    (∀ g ∈ (divide_by_page_estimation total_pages cantidad_declarada).dropLast,
      g.length = total_pages / cantidad_declarada) ∧
    (∀ g ∈ divide_by_page_estimation total_pages cantidad_declarada,
      ∃ s, g = List.range' s g.length) ∧
    (divide_by_page_estimation total_pages cantidad_declarada).flatten
      = List.range total_pages := by
  have hq1 : 1 ≤ total_pages / cantidad_declarada :=
    (Nat.one_le_div_iff (by omega)).2 h2
  have hq2 : total_pages / cantidad_declarada ≤ total_pages := Nat.div_le_self _ _
  have hmul : total_pages / cantidad_declarada * cantidad_declarada ≤ total_pages :=
    Nat.div_mul_le_self _ _
  have hmul2 : cantidad_declarada * (total_pages / cantidad_declarada) ≤ total_pages := by
    rw [Nat.mul_comm]
    exact hmul
  have hsub : (cantidad_declarada - 1) * (total_pages / cantidad_declarada)
      = cantidad_declarada * (total_pages / cantidad_declarada)
        - total_pages / cantidad_declarada := by
    rw [Nat.sub_one_mul]
  have hlt : 0 + (cantidad_declarada - 1) * (total_pages / cantidad_declarada)
      < total_pages := by omega
  have hdef : divide_by_page_estimation total_pages cantidad_declarada
      = divideLoop total_pages (total_pages / cantidad_declarada)
          cantidad_declarada 0 := by
    unfold divide_by_page_estimation
    rw [if_neg (show ¬ cantidad_declarada ≤ 0 by omega)]
    show divideLoop total_pages (max 1 (total_pages / cantidad_declarada))
        cantidad_declarada 0 = _
    rw [Nat.max_eq_right hq1]
  obtain ⟨sl, sj, sdrop, srange⟩ :=
    divideLoop_spec total_pages (total_pages / cantidad_declarada) hq1
      cantidad_declarada 0 h1 hlt
  rw [hdef]
  refine ⟨sl, sdrop, srange, ?_⟩
  rw [sj]
  simp [pagesFromTo, List.range_eq_range']

/-- Closed instance of amended C5: ten pages declared as three oficios
give three groups of sizes three, three and four covering all pages. -/
theorem divide_by_page_estimation_even_split_witness :
    (divide_by_page_estimation 10 3).length = 3 ∧
    (divide_by_page_estimation 10 3).flatten = List.range 10 :=
  ⟨(divide_by_page_estimation_even_split 10 3 (by decide) (by decide)).1,
   (divide_by_page_estimation_even_split 10 3 (by decide) (by decide)).2.2.2⟩

/-- The range-building loop of split_by_separators produces one more
range than there are separators, provided every separator lies strictly
after the pending start, strictly before the last page, and no two
separators are adjacent. -/
lemma sepRanges_length (total_pages : Nat) :
    ∀ (seps : List Nat) (prev : Nat),
      List.Pairwise (fun a b => a + 1 < b) seps →
      (∀ s ∈ seps, prev < s ∧ s + 1 < total_pages) →
      prev < total_pages →
      (sepRanges total_pages prev seps).length = seps.length + 1 := by
  intro seps
  induction seps with
  | nil =>
    intro prev hp hb hlt
    simp [sepRanges, hlt]
  | cons s rest ih =>
    intro prev hp hb hlt
    have hs := hb s (List.mem_cons_self s rest)
    have hres : sepRanges total_pages prev (s :: rest)
        = (prev, s - 1) :: sepRanges total_pages (s + 1) rest := by
      simp [sepRanges, hs.1]
    have hdp := List.pairwise_cons.1 hp
    have hrec := ih (s + 1) hdp.2
      (fun r hr => ⟨hdp.1 r hr, (hb r (List.mem_cons_of_mem s hr)).2⟩)
      (by omega)
    rw [hres]
    simp [hrec]

/-- C6 as stated fails: a three-page PDF with no separator page is
counted as one oficio before splitting, while the per-page fallback of
the splitter produces two. -/
theorem count_vs_split_counterexample :
    count_separators_in_pdf
        [⟨"config".toList⟩, ⟨"hello".toList⟩, ⟨"world".toList⟩] + 1
      ≠ (split_pdf_into_oficios_skip_config
          [⟨"config".toList⟩, ⟨"hello".toList⟩, ⟨"world".toList⟩]).length := by
  decide

/-- C6 amended: the pre-split count count_separators_in_pdf + 1 equals
the number of oficios produced by split_pdf_into_oficios_skip_config
whenever at least one separator page is found and every separator is
isolated: not the first scanned page, not the last page, and not adjacent
to another separator.  When no separator is found the per-page fallback
runs, and the counts agree exactly for PDFs with at least one and at most
two pages (one page is scanned, so both sides are one). -/
theorem count_matches_split_characterization (pages : List Page) :
    (List.Pairwise (fun a b => a + 1 < b) (scanSeparators pages) →
      (∀ s ∈ scanSeparators pages,
        startPage pages.length < s ∧ s + 1 < pages.length) →
      scanSeparators pages ≠ [] →
      count_separators_in_pdf pages + 1
        = (split_pdf_into_oficios_skip_config pages).length) ∧
    (scanSeparators pages = [] →
      (count_separators_in_pdf pages + 1
          = (split_pdf_into_oficios_skip_config pages).length
        ↔ 1 ≤ pages.length ∧ pages.length ≤ 2)) := by
  constructor
  · intro h1 h2 h3
    obtain ⟨s0, hs0⟩ := List.exists_mem_of_ne_nil _ h3
    have hstart : startPage pages.length < pages.length := by
      have := h2 s0 hs0
      omega
    unfold count_separators_in_pdf
    simp only [split_pdf_into_oficios_skip_config]
    rw [if_pos h3]
    unfold split_by_separators
    rw [List.length_map,
      sepRanges_length pages.length (scanSeparators pages) (startPage pages.length)
        h1 h2 hstart]
  · intro h
    unfold count_separators_in_pdf
    rw [h]
    simp only [split_pdf_into_oficios_skip_config]
    rw [if_neg (by simp [h]), List.length_map, pagesFromTo_length, List.length_nil]
    unfold startPage
    by_cases h2 : 1 < pages.length
    · rw [if_pos h2]
      omega
    · rw [if_neg h2]
      omega

/-- Closed instance of amended C6: one isolated separator page gives a
count of two and a split into two oficios; a separator-free two-page PDF
gives one on both sides. -/
theorem count_matches_split_witness :
    (count_separators_in_pdf
        [⟨"config".toList⟩, ⟨"a".toList⟩,
         ⟨"==== SEPARADOR DE OFICIOS ====".toList⟩, ⟨"b".toList⟩] + 1
      = (split_pdf_into_oficios_skip_config
          [⟨"config".toList⟩, ⟨"a".toList⟩,
           ⟨"==== SEPARADOR DE OFICIOS ====".toList⟩, ⟨"b".toList⟩]).length) ∧
    (count_separators_in_pdf [⟨"config".toList⟩, ⟨"hola".toList⟩] + 1
      = (split_pdf_into_oficios_skip_config
          [⟨"config".toList⟩, ⟨"hola".toList⟩]).length) :=
  ⟨(count_matches_split_characterization
      [⟨"config".toList⟩, ⟨"a".toList⟩,
       ⟨"==== SEPARADOR DE OFICIOS ====".toList⟩, ⟨"b".toList⟩]).1
      (by decide) (by decide) (by decide),
   ((count_matches_split_characterization
      [⟨"config".toList⟩, ⟨"hola".toList⟩]).2 (by decide)).2 (by decide)⟩

/-- The invariants claimed for a splitting strategy's output: every range
non-empty and contiguous, ranges pairwise disjoint and in strictly
increasing page order, no separator page in any range, and every
non-separator page in exactly one range. -/
def ValidGrouping (total_pages : Nat) (separators : List Nat)
    (G : List (List Nat)) : Prop :=
  (∀ g ∈ G, g ≠ []) ∧
  (∀ g ∈ G, ∃ st, g = List.range' st g.length) ∧
  List.Pairwise (fun g h => ∀ a ∈ g, ∀ b ∈ h, a < b) G ∧
  (∀ g ∈ G, ∀ p ∈ g, p ∉ separators) ∧
  (∀ p, p < total_pages → p ∉ separators →
    G.countP (fun g => decide (p ∈ g)) = 1)

/-- Every group built by the separator loop is a non-empty contiguous run
of pages between the pending start and the end of the PDF. -/
lemma groupLoop_shape (total_pages : Nat) :
    ∀ (seps : List Nat) (c : Nat),
      List.Pairwise (· < ·) seps →
      (∀ s ∈ seps, c ≤ s ∧ s < total_pages) →
      ∀ g ∈ groupLoop total_pages c seps,
        g ≠ [] ∧ (∃ st, g = List.range' st g.length) ∧
        ∀ p ∈ g, c ≤ p ∧ p < total_pages := by
  intro seps
  induction seps with
  | nil =>
    intro c hsort hb g hg
    unfold groupLoop at hg
    split at hg
    next hlt =>
      rw [List.mem_singleton] at hg
      subst hg
      refine ⟨List.length_pos.1 (by rw [pagesFromTo_length]; omega),
        pagesFromTo_isRange _ _, fun p hp => ?_⟩
      rw [mem_pagesFromTo] at hp
      omega
    next => simp at hg
  | cons s rest ih =>
    intro c hsort hb g hg
    have hs := hb s (List.mem_cons_self s rest)
    have hps := List.pairwise_cons.1 hsort
    have hbrest : ∀ r ∈ rest, s + 1 ≤ r ∧ r < total_pages := fun r hr =>
      ⟨hps.1 r hr, (hb r (List.mem_cons_of_mem s hr)).2⟩
    unfold groupLoop at hg
    split at hg
    next hlt =>
      rw [List.mem_cons] at hg
      rcases hg with hg | hg
      · subst hg
        refine ⟨List.length_pos.1 (by rw [pagesFromTo_length]; omega),
          pagesFromTo_isRange _ _, fun p hp => ?_⟩
        rw [mem_pagesFromTo] at hp
        omega
      · have h3 := ih (s + 1) hps.2 hbrest g hg
        exact ⟨h3.1, h3.2.1, fun p hp => by have := h3.2.2 p hp; omega⟩
    next hlt =>
      have h3 := ih (s + 1) hps.2 hbrest g hg
      exact ⟨h3.1, h3.2.1, fun p hp => by have := h3.2.2 p hp; omega⟩

/-- No page of any group built by the separator loop is a separator. -/
lemma groupLoop_no_separator (total_pages : Nat) :
    ∀ (seps : List Nat) (c : Nat),
      List.Pairwise (· < ·) seps →
      (∀ s ∈ seps, c ≤ s ∧ s < total_pages) →
      ∀ g ∈ groupLoop total_pages c seps, ∀ p ∈ g, p ∉ seps := by
  intro seps
  induction seps with
  | nil =>
    intro c _ _ g _ p _
    simp
  | cons s rest ih =>
    intro c hsort hb g hg p hp
    have hps := List.pairwise_cons.1 hsort
    have hbrest : ∀ r ∈ rest, s + 1 ≤ r ∧ r < total_pages := fun r hr =>
      ⟨hps.1 r hr, (hb r (List.mem_cons_of_mem s hr)).2⟩
    rw [List.mem_cons]
    push_neg
    unfold groupLoop at hg
    split at hg
    next hlt =>
      rw [List.mem_cons] at hg
      rcases hg with hg | hg
      · subst hg
        rw [mem_pagesFromTo] at hp
        refine ⟨by omega, fun hmem => ?_⟩
        have := hps.1 p hmem
        omega
      · have hnot := ih (s + 1) hps.2 hbrest g hg p hp
        have hbound := (groupLoop_shape total_pages rest (s + 1) hps.2 hbrest g hg).2.2 p hp
        exact ⟨by omega, hnot⟩
    next hlt =>
      have hnot := ih (s + 1) hps.2 hbrest g hg p hp
      have hbound := (groupLoop_shape total_pages rest (s + 1) hps.2 hbrest g hg).2.2 p hp
      exact ⟨by omega, hnot⟩

/-- The groups built by the separator loop come in strictly increasing
page order. -/
lemma groupLoop_pairwise (total_pages : Nat) :
    ∀ (seps : List Nat) (c : Nat),
      List.Pairwise (· < ·) seps →
      (∀ s ∈ seps, c ≤ s ∧ s < total_pages) →
      List.Pairwise (fun g h => ∀ a ∈ g, ∀ b ∈ h, a < b)
        (groupLoop total_pages c seps) := by
  intro seps
  induction seps with
  | nil =>
    intro c _ _
    unfold groupLoop
    split
    · exact List.pairwise_singleton _ _
    · exact List.Pairwise.nil
  | cons s rest ih =>
    intro c hsort hb
    have hps := List.pairwise_cons.1 hsort
    have hbrest : ∀ r ∈ rest, s + 1 ≤ r ∧ r < total_pages := fun r hr =>
      ⟨hps.1 r hr, (hb r (List.mem_cons_of_mem s hr)).2⟩
    unfold groupLoop
    split
    next hlt =>
      refine List.pairwise_cons.2 ⟨?_, ih (s + 1) hps.2 hbrest⟩
      intro h hh a ha b hbm
      rw [mem_pagesFromTo] at ha
      have := (groupLoop_shape total_pages rest (s + 1) hps.2 hbrest h hh).2.2 b hbm
      omega
    next => exact ih (s + 1) hps.2 hbrest

/-- Every non-separator page from the pending start on lies in exactly
one group built by the separator loop. -/
lemma groupLoop_cover (total_pages : Nat) :
    ∀ (seps : List Nat) (c : Nat),
      List.Pairwise (· < ·) seps →
      (∀ s ∈ seps, c ≤ s ∧ s < total_pages) →
      ∀ p, c ≤ p → p < total_pages → p ∉ seps →
        (groupLoop total_pages c seps).countP (fun g => decide (p ∈ g)) = 1 := by
  intro seps
  induction seps with
  | nil =>
    intro c _ _ p hcp hpt _
    unfold groupLoop
    rw [if_pos (by omega)]
    have hmem : p ∈ pagesFromTo c total_pages := mem_pagesFromTo.2 ⟨hcp, hpt⟩
    simp [List.countP_cons, hmem]
  | cons s rest ih =>
    intro c hsort hb p hcp hpt hnotin
    have hs := hb s (List.mem_cons_self s rest)
    have hps := List.pairwise_cons.1 hsort
    have hbrest : ∀ r ∈ rest, s + 1 ≤ r ∧ r < total_pages := fun r hr =>
      ⟨hps.1 r hr, (hb r (List.mem_cons_of_mem s hr)).2⟩
    have hpne : p ≠ s := fun h => hnotin (h ▸ List.mem_cons_self s rest)
    have hpnr : p ∉ rest := fun h => hnotin (List.mem_cons_of_mem s h)
    unfold groupLoop
    split
    next hlt =>
      by_cases hps2 : p < s
      · have hhead : p ∈ pagesFromTo c s := mem_pagesFromTo.2 ⟨hcp, hps2⟩
        have hrec : (groupLoop total_pages (s + 1) rest).countP
            (fun g => decide (p ∈ g)) = 0 := by
          rw [List.countP_eq_zero]
          intro g hg
          simp only [decide_eq_true_eq]
          intro hpg
          have := (groupLoop_shape total_pages rest (s + 1) hps.2 hbrest g hg).2.2 p hpg
          omega
        simp [List.countP_cons, hhead, hrec]
      · have hhead : p ∉ pagesFromTo c s := by
          rw [mem_pagesFromTo]
          omega
        have hrec := ih (s + 1) hps.2 hbrest p (by omega) hpt hpnr
        simp [List.countP_cons, hhead, hrec]
    next hlt =>
      exact ih (s + 1) hps.2 hbrest p (by omega) hpt hpnr

/-- Every group built by the document-starts loop is a non-empty
contiguous run between the first start and the end of the PDF. -/
lemma startsLoop_shape (total_pages : Nat) :
    ∀ (rest : List Nat) (s : Nat),
      List.Pairwise (· < ·) (s :: rest) →
      (∀ x ∈ s :: rest, x < total_pages) →
      ∀ g ∈ startsLoop total_pages (s :: rest),
        g ≠ [] ∧ (∃ st, g = List.range' st g.length) ∧
        ∀ p ∈ g, s ≤ p ∧ p < total_pages := by
  intro rest
  induction rest with
  | nil =>
    intro s hsort hb g hg
    have hst : s < total_pages := hb s (List.mem_cons_self s [])
    unfold startsLoop at hg
    rw [if_pos (by rw [pagesFromTo_length]; omega), List.mem_singleton] at hg
    subst hg
    refine ⟨List.length_pos.1 (by rw [pagesFromTo_length]; omega),
      pagesFromTo_isRange _ _, fun p hp => ?_⟩
    rw [mem_pagesFromTo] at hp
    omega
  | cons t rest ih =>
    intro s hsort hb g hg
    have hst2 : s < t := (List.pairwise_cons.1 hsort).1 t (List.mem_cons_self t rest)
    have hsort2 := (List.pairwise_cons.1 hsort).2
    have hb2 : ∀ x ∈ t :: rest, x < total_pages := fun x hx =>
      hb x (List.mem_cons_of_mem s hx)
    have htt : t < total_pages := hb2 t (List.mem_cons_self t rest)
    unfold startsLoop at hg
    rw [if_pos (by rw [pagesFromTo_length]; omega)] at hg
    rw [List.singleton_append, List.mem_cons] at hg
    rcases hg with hg | hg
    · subst hg
      refine ⟨List.length_pos.1 (by rw [pagesFromTo_length]; omega),
        pagesFromTo_isRange _ _, fun p hp => ?_⟩
      rw [mem_pagesFromTo] at hp
      omega
    · have h3 := ih t hsort2 hb2 g hg
      exact ⟨h3.1, h3.2.1, fun p hp => by have := h3.2.2 p hp; omega⟩

/-- The groups built by the document-starts loop come in strictly
increasing page order. -/
lemma startsLoop_pairwise (total_pages : Nat) :
    ∀ (rest : List Nat) (s : Nat),
      List.Pairwise (· < ·) (s :: rest) →
      (∀ x ∈ s :: rest, x < total_pages) →
      List.Pairwise (fun g h => ∀ a ∈ g, ∀ b ∈ h, a < b)
        (startsLoop total_pages (s :: rest)) := by
  intro rest
  induction rest with
  | nil =>
    intro s hsort hb
    have hst : s < total_pages := hb s (List.mem_cons_self s [])
    unfold startsLoop
    rw [if_pos (by rw [pagesFromTo_length]; omega)]
    exact List.pairwise_singleton _ _
  | cons t rest ih =>
    intro s hsort hb
    have hst2 : s < t := (List.pairwise_cons.1 hsort).1 t (List.mem_cons_self t rest)
    have hsort2 := (List.pairwise_cons.1 hsort).2
    have hb2 : ∀ x ∈ t :: rest, x < total_pages := fun x hx =>
      hb x (List.mem_cons_of_mem s hx)
    unfold startsLoop
    rw [if_pos (by rw [pagesFromTo_length]; omega), List.singleton_append]
    refine List.pairwise_cons.2 ⟨?_, ih t hsort2 hb2⟩
    intro h hh a ha b hbm
    rw [mem_pagesFromTo] at ha
    have := (startsLoop_shape total_pages rest t hsort2 hb2 h hh).2.2 b hbm
    omega

/-- Every page from the first start on lies in exactly one group built
by the document-starts loop. -/
lemma startsLoop_cover (total_pages : Nat) :
    ∀ (rest : List Nat) (s : Nat),
      List.Pairwise (· < ·) (s :: rest) →
      (∀ x ∈ s :: rest, x < total_pages) →
      ∀ p, s ≤ p → p < total_pages →
        (startsLoop total_pages (s :: rest)).countP (fun g => decide (p ∈ g)) = 1 := by
  intro rest
  induction rest with
  | nil =>
    intro s hsort hb p hsp hpt
    have hst : s < total_pages := hb s (List.mem_cons_self s [])
    unfold startsLoop
    rw [if_pos (by rw [pagesFromTo_length]; omega)]
    have hmem : p ∈ pagesFromTo s total_pages := mem_pagesFromTo.2 ⟨hsp, hpt⟩
    simp [List.countP_cons, hmem]
  | cons t rest ih =>
    intro s hsort hb p hsp hpt
    have hst2 : s < t := (List.pairwise_cons.1 hsort).1 t (List.mem_cons_self t rest)
    have hsort2 := (List.pairwise_cons.1 hsort).2
    have hb2 : ∀ x ∈ t :: rest, x < total_pages := fun x hx =>
      hb x (List.mem_cons_of_mem s hx)
    unfold startsLoop
    rw [if_pos (by rw [pagesFromTo_length]; omega), List.singleton_append]
    by_cases hpt2 : p < t
    · have hhead : p ∈ pagesFromTo s t := mem_pagesFromTo.2 ⟨hsp, hpt2⟩
      have hrec : (startsLoop total_pages (t :: rest)).countP
          (fun g => decide (p ∈ g)) = 0 := by
        rw [List.countP_eq_zero]
        intro g hg
        simp only [decide_eq_true_eq]
        intro hpg
        have := (startsLoop_shape total_pages rest t hsort2 hb2 g hg).2.2 p hpg
        omega
      simp [List.countP_cons, hhead, hrec]
    · have hhead : p ∉ pagesFromTo s t := by
        rw [mem_pagesFromTo]
        omega
      have hrec := ih t hsort2 hb2 p (by omega) hpt
      simp [List.countP_cons, hhead, hrec]

/-- C7: each splitting strategy of the email processor outputs non-empty
contiguous page ranges, pairwise disjoint and in strictly increasing
order; no separator page lies in any range and every other page lies in
exactly one (for the document-starts strategy the separator set is
empty, so every page is covered). -/
theorem grouping_strategies_partition (total_pages : Nat)
    (separators rest_starts : List Nat)
    (hsep_sorted : List.Pairwise (· < ·) separators)
    (hsep_bound : ∀ s ∈ separators, s < total_pages)
    (hst_sorted : List.Pairwise (· < ·) (0 :: rest_starts))
    (hst_bound : ∀ x ∈ 0 :: rest_starts, x < total_pages) :
    ValidGrouping total_pages separators
      (group_pages_by_explicit_separators total_pages separators) ∧
    ValidGrouping total_pages []
      (group_pages_by_document_starts total_pages (0 :: rest_starts)) := by
  have hsepb : ∀ s ∈ separators, 0 ≤ s ∧ s < total_pages := fun s hs =>
    ⟨Nat.zero_le s, hsep_bound s hs⟩
  have hfil : group_pages_by_explicit_separators total_pages separators
      = groupLoop total_pages 0 separators := by
    unfold group_pages_by_explicit_separators
    apply List.filter_eq_self.2
    intro g hg
    have h1 := (groupLoop_shape total_pages separators 0 hsep_sorted hsepb g hg).1
    simpa [List.length_pos] using h1
  constructor
  · rw [hfil]
    exact ⟨fun g hg => (groupLoop_shape total_pages separators 0 hsep_sorted hsepb g hg).1,
      fun g hg => (groupLoop_shape total_pages separators 0 hsep_sorted hsepb g hg).2.1,
      groupLoop_pairwise total_pages separators 0 hsep_sorted hsepb,
      groupLoop_no_separator total_pages separators 0 hsep_sorted hsepb,
      fun p hpt hpn =>
        groupLoop_cover total_pages separators 0 hsep_sorted hsepb p (Nat.zero_le p)
          hpt hpn⟩
  · unfold group_pages_by_document_starts
    exact ⟨fun g hg =>
        (startsLoop_shape total_pages rest_starts 0 hst_sorted hst_bound g hg).1,
      fun g hg =>
        (startsLoop_shape total_pages rest_starts 0 hst_sorted hst_bound g hg).2.1,
      startsLoop_pairwise total_pages rest_starts 0 hst_sorted hst_bound,
      fun g _ p _ hmem => absurd hmem (List.not_mem_nil p),
      fun p hpt _ =>
        startsLoop_cover total_pages rest_starts 0 hst_sorted hst_bound p
          (Nat.zero_le p) hpt⟩

/-- Closed instance of C7: five pages with separator page two, and
document starts at pages zero and three. -/
theorem grouping_strategies_partition_witness :
    ValidGrouping 5 [2] (group_pages_by_explicit_separators 5 [2]) ∧
    ValidGrouping 5 [] (group_pages_by_document_starts 5 [0, 3]) :=
  grouping_strategies_partition 5 [2] [3]
    (by decide) (by decide) (by decide) (by decide)

end OcrSam
